import Mathlib

/-!
Shallow embedding of the job-lifecycle decision engine of the
flink-on-k8s-operator repository, from
src/apis/flinkcluster/v1beta1/flinkcluster_types_util.go.

Modelling conventions:
- Go nil pointers become Option; a function that would dereference a nil
  pointer (runtime panic) returns none in an Option-valued result.
- time.Time is modelled as Int (seconds); the Go zero time is 0, and
  Time.IsZero is the test against 0.
- The savepointTime field is a timestamp string in Go where the empty
  string means "none recorded"; it is modelled as Option Int (none = "").
- Go strings stay Lean String; strings.TrimSpace and strings.ToLower are
  modelled over the character list (ASCII, which covers every value the
  source compares against).
-/

namespace FlinkOperator

/-- Modelled from the spec: the job lifecycle state enum of the data model
(flinkcluster_types.go is not part of the excerpt); the ten values are listed
in section 3 of the spec. The Go type is an open string type, so the model
keeps String and defines the known values as constants. -/
def JobStatePending : String := "Pending"

def JobStateDeploying : String := "Deploying"

def JobStateRunning : String := "Running"

def JobStateUpdating : String := "Updating"

def JobStateRestarting : String := "Restarting"

def JobStateSucceeded : String := "Succeeded"

def JobStateCancelled : String := "Cancelled"

def JobStateFailed : String := "Failed"

def JobStateLost : String := "Lost"

def JobStateDeployFailed : String := "DeployFailed"

/-- The ten lifecycle states of the data model (spec section 3). -/
def knownJobStates : List String :=
  [JobStatePending, JobStateDeploying, JobStateRunning, JobStateUpdating,
   JobStateRestarting, JobStateSucceeded, JobStateCancelled, JobStateFailed,
   JobStateLost, JobStateDeployFailed]

/-- Modelled from the spec: the restart policy enum value
FromSavepointOnFailure (flinkcluster_types.go is not part of the excerpt);
the Go type is a string type. -/
def JobRestartPolicyFromSavepointOnFailure : String := "FromSavepointOnFailure"

/-- Modelled from the spec: the JobStatus record of section 3 of the spec
(flinkcluster_types.go is not part of the excerpt). completionTime is a
*metav1.Time in Go, modelled as Option Int. -/
structure JobStatus where
  state : String
  savepointLocation : String
  savepointTime : Option Int
  finalSavepoint : Bool
  completionTime : Option Int
deriving DecidableEq, Repr

/-- Modelled from the spec: the JobSpec record of section 3 of the spec
(flinkcluster_types.go is not part of the excerpt); every field is a Go
pointer, hence Option. -/
structure JobSpec where
  restartPolicy : Option String
  maxStateAgeToRestoreSeconds : Option Int
  takeSavepointOnUpdate : Option Bool
  fromSavepoint : Option String
deriving DecidableEq, Repr

/-- strings.TrimSpace, over the character list (ASCII whitespace). -/
def trimSpace (s : String) : String :=
  String.mk (((s.data.dropWhile Char.isWhitespace).reverse.dropWhile Char.isWhitespace).reverse)

/-- strings.ToLower, over the character list (ASCII). -/
def toLowerStr (s : String) : String :=
  String.mk (s.data.map Char.toLower)

/-- isBlank from the source: nil or trimming to the empty string. -/
def isBlank : Option String → Bool
  | none => true
  | some s => trimSpace s == ""

/-- metav1.Time.IsZero, which treats a nil *metav1.Time as zero. -/
def metav1TimeIsZero : Option Int → Bool
  | none => true
  | some t => t == 0

/-- IsActive from the source: non-nil and state Running or Deploying. -/
def IsActive : Option JobStatus → Bool
  | none => false
  | some j => j.state == JobStateRunning || j.state == JobStateDeploying

/-- IsPending from the source: non-nil and state Pending, Updating or Restarting. -/
def IsPending : Option JobStatus → Bool
  | none => false
  | some j => j.state == JobStatePending || j.state == JobStateUpdating ||
      j.state == JobStateRestarting

/-- IsFailed from the source: non-nil and state Failed, Lost or DeployFailed. -/
def IsFailed : Option JobStatus → Bool
  | none => false
  | some j => j.state == JobStateFailed || j.state == JobStateLost ||
      j.state == JobStateDeployFailed

/-- IsStopped from the source: non-nil and state Succeeded or Cancelled, or IsFailed. -/
def IsStopped (j : Option JobStatus) : Bool :=
  match j with
  | none => false
  | some jj => jj.state == JobStateSucceeded || jj.state == JobStateCancelled ||
      IsFailed (some jj)

/-- Modelled from the spec: internal/util.HasTimeElapsed is not part of the
excerpt. Section 4.2 rule 3 of the spec fixes up-to-date as elapsed time
strictly less than the max age, and the source takes the negation of
HasTimeElapsed, so HasTimeElapsed holds iff at least intervalSec seconds
have elapsed from timeToCheck to now. -/
def HasTimeElapsed (timeToCheck : Int) (now : Int) (intervalSec : Int) : Bool :=
  intervalSec ≤ now - timeToCheck

/-- The body of IsSavepointUpToDate from the source for a non-nil spec,
reached whenever the Go code dereferences spec without panicking. -/
def isSavepointUpToDateWithSpec (j : JobStatus) (s : JobSpec) (compareTime : Int) : Bool :=
  if j.finalSavepoint then true
  else if compareTime == 0 || s.maxStateAgeToRestoreSeconds == none ||
      j.savepointLocation == "" || j.savepointTime == none then false
  else !HasTimeElapsed (j.savepointTime.getD 0) compareTime (s.maxStateAgeToRestoreSeconds.getD 0)

/-- IsSavepointUpToDate from the source. The Go method requires a non-nil
receiver; spec is dereferenced only after the finalSavepoint check and the
short-circuiting compareTime.IsZero() test, so a nil spec panics (none)
exactly when finalSavepoint is false and compareTime is non-zero. -/
def IsSavepointUpToDate (j : JobStatus) (spec : Option JobSpec) (compareTime : Int) : Option Bool :=
  if j.finalSavepoint then some true
  else if compareTime == 0 then some false
  else
    match spec with
    | none => none
    | some s => some (isSavepointUpToDateWithSpec j s compareTime)

/-- ShouldRestart from the source: false if the status is nil, not failed,
or the spec is nil; otherwise restart-policy opt-in and savepoint freshness
as of the completion time (zero when unset). -/
def ShouldRestart (j : Option JobStatus) (spec : Option JobSpec) : Bool :=
  match j, spec with
  | some jj, some s =>
    if !IsFailed (some jj) then false
    else
      let restartEnabled := s.restartPolicy == some JobRestartPolicyFromSavepointOnFailure
      let jobCompletionTime : Int := jj.completionTime.getD 0
      restartEnabled && isSavepointUpToDateWithSpec jj s jobCompletionTime
  | _, _ => false

/-- IsTerminated from the source: stopped and not restarting. -/
def IsTerminated (j : Option JobStatus) (spec : Option JobSpec) : Bool :=
  IsStopped j && !ShouldRestart j spec

/-- UpdateReady from the source. The Go code computes
takeSavepointOnUpdate from spec before the j == nil switch case, so a nil
spec panics (none) on every path. -/
def UpdateReady (j : Option JobStatus) (spec : Option JobSpec) (observeTime : Int) : Option Bool :=
  match spec with
  | none => none
  | some s =>
    let takeSavepointOnUpdate := s.takeSavepointOnUpdate.getD true
    match j with
    | none => some true
    | some jj =>
      if !isBlank s.fromSavepoint then some true
      else if IsActive (some jj) then
        if takeSavepointOnUpdate then some jj.finalSavepoint
        else some (isSavepointUpToDateWithSpec jj s observeTime)
      else if jj.state == JobStateUpdating && !takeSavepointOnUpdate then some true
      else
        let jobCompletionTime : Int :=
          if !metav1TimeIsZero jj.completionTime then jj.completionTime.getD 0 else 0
        some (isSavepointUpToDateWithSpec jj s jobCompletionTime)

/-- The HA flink property key for the HA type. -/
def haConfigType : String := "high-availability"

/-- The HA flink property key for the storage directory. -/
def haConfigStorageDir : String := "high-availability.storageDir"

/-- The HA flink property key for the cluster id. -/
def haConfigClusterId : String := "kubernetes.cluster-id"

/-- Go map lookup over an association list model of map[string]string. -/
def mapLookup : List (String × String) → String → Option String
  | [], _ => none
  | (k, v) :: rest, key => if k == key then some v else mapLookup rest key

/-- Modelled from the spec: the FlinkCluster spec record, of which only the
FlinkProperties map (nil-able in Go) is used by the excerpt. -/
structure FlinkClusterSpec where
  flinkProperties : Option (List (String × String))
deriving DecidableEq, Repr

/-- Modelled from the spec: the FlinkCluster resource wrapping the spec. -/
structure FlinkCluster where
  spec : FlinkClusterSpec
deriving DecidableEq, Repr

/-- IsHighAvailabilityEnabled from the source: nil map disabled; the
high-availability key must be present and, lowercased, differ from none;
the cluster-id and storageDir keys must be present and non-blank. -/
def IsHighAvailabilityEnabled (fc : FlinkCluster) : Bool :=
  match fc.spec.flinkProperties with
  | none => false
  | some props =>
    match mapLookup props haConfigType with
    | none => false
    | some v =>
      if toLowerStr v == "none" then false
      else
        match mapLookup props haConfigClusterId with
        | none => false
        | some v2 =>
          if trimSpace v2 == "" then false
          else
            match mapLookup props haConfigStorageDir with
            | none => false
            | some v3 => !(trimSpace v3 == "")

/-- GetHAConfigMapName from the source: empty when HA is not enabled,
else the raw cluster-id value (Go map indexing, zero value when absent)
followed by the fixed suffix. -/
def GetHAConfigMapName (fc : FlinkCluster) : String :=
  if !IsHighAvailabilityEnabled fc then ""
  else (mapLookup (fc.spec.flinkProperties.getD []) haConfigClusterId).getD "" ++
    "-cluster-config-map"

/-- Freshness of the savepoint as of the job completion time (zero when
unset), exactly the check ShouldRestart composes after its guards; false
when the status or the spec is absent. -/
def savepointFreshAtCompletion : Option JobStatus → Option JobSpec → Bool
  | some jj, some s => isSavepointUpToDateWithSpec jj s (jj.completionTime.getD 0)
  | _, _ => false

/-- Exactly one of four booleans holds. -/
def exactlyOneOfFour (a b c d : Bool) : Bool :=
  (a && !b && !c && !d) || (!a && b && !c && !d) ||
  (!a && !b && c && !d) || (!a && !b && !c && d)

lemma isSavepointUpToDate_some (j : JobStatus) (s : JobSpec) (t : Int) :
    IsSavepointUpToDate j (some s) t = some (isSavepointUpToDateWithSpec j s t) := by
  unfold IsSavepointUpToDate isSavepointUpToDateWithSpec
  by_cases hfs : j.finalSavepoint
  · simp [hfs]
  · simp only [hfs, Bool.false_eq_true, if_false]
    by_cases ht : (t == 0) = true
    · simp [ht]
    · simp only [Bool.not_eq_true] at ht
      simp [ht]

/-- C3: for every JobStatus with finalSavepoint true (and, per the data
model invariant, non-empty savepointLocation and savepointTime),
IsSavepointUpToDate returns true for every spec (present or absent) and
every compareTime, the zero time included. -/
theorem isSavepointUpToDate_final_absorbs (j : JobStatus)
    (hfs : j.finalSavepoint = true)
    (hloc : j.savepointLocation ≠ "") (htime : j.savepointTime ≠ none) :
    ∀ (spec : Option JobSpec) (compareTime : Int),
      IsSavepointUpToDate j spec compareTime = some true := by
  intro spec t
  unfold IsSavepointUpToDate
  simp [hfs]

theorem isSavepointUpToDate_final_absorbs_witness :
    IsSavepointUpToDate ⟨JobStateFailed, "s3://x", some 100, true, none⟩ none 0 = some true :=
  isSavepointUpToDate_final_absorbs ⟨JobStateFailed, "s3://x", some 100, true, none⟩
    (by decide) (by decide) (by decide) none 0

/-- C4: for every JobStatus with finalSavepoint false, IsSavepointUpToDate
returns false whenever compareTime is zero, maxStateAgeToRestoreSeconds is
absent, savepointLocation is empty or savepointTime is empty; otherwise it
returns true iff the elapsed time from savepointTime to compareTime is
strictly less than maxStateAgeToRestoreSeconds. -/
theorem isSavepointUpToDate_staleness (j : JobStatus) (s : JobSpec) (t : Int)
    (hfs : j.finalSavepoint = false) :
    ((t = 0 ∨ s.maxStateAgeToRestoreSeconds = none ∨ j.savepointLocation = "" ∨
        j.savepointTime = none) →
      IsSavepointUpToDate j (some s) t = some false) ∧
    (∀ maxAge spTime, s.maxStateAgeToRestoreSeconds = some maxAge →
      j.savepointTime = some spTime → t ≠ 0 → j.savepointLocation ≠ "" →
      (IsSavepointUpToDate j (some s) t = some true ↔ t - spTime < maxAge)) := by
  rw [isSavepointUpToDate_some]
  unfold isSavepointUpToDateWithSpec
  constructor
  · intro hcase
    rcases hcase with h | h | h | h <;> simp [hfs, h]
  · intro maxAge spTime hAge hTime ht hloc
    simp [hfs, hAge, hTime, ht, hloc, HasTimeElapsed]

theorem isSavepointUpToDate_staleness_witness :
    IsSavepointUpToDate ⟨JobStateFailed, "s3://x", some 100, false, none⟩
      (some ⟨none, some 60, none, none⟩) 159 = some true :=
  ((isSavepointUpToDate_staleness ⟨JobStateFailed, "s3://x", some 100, false, none⟩
      ⟨none, some 60, none, none⟩ 159 rfl).2 60 100 rfl rfl (by decide) (by decide)).mpr
    (by decide)

/-- C1: ShouldRestart is false when the status is absent, the status is not
in the Failed classification, or the spec is absent; otherwise it is true
iff restartPolicy is FromSavepointOnFailure and the savepoint is up to date
as of the completion time (zero when unset); and no input yields true
without the freshness check holding. -/
theorem shouldRestart_characterization (j : Option JobStatus) (s : Option JobSpec) :
    ((j = none ∨ IsFailed j = false ∨ s = none) → ShouldRestart j s = false) ∧
    (∀ jj ss, j = some jj → s = some ss → IsFailed j = true →
      (ShouldRestart j s = true ↔
        (ss.restartPolicy = some JobRestartPolicyFromSavepointOnFailure ∧
         IsSavepointUpToDate jj (some ss) (jj.completionTime.getD 0) = some true))) ∧
    (ShouldRestart j s = true → savepointFreshAtCompletion j s = true) := by
  refine ⟨?_, ?_, ?_⟩
  · intro hcase
    rcases hcase with h | h | h
    · subst h; cases s <;> rfl
    · cases j with
      | none => cases s <;> rfl
      | some jj =>
        cases s with
        | none => rfl
        | some ss => simp [ShouldRestart, h]
    · subst h; cases j <;> rfl
  · intro jj ss hj hs hfail
    subst hj; subst hs
    simp [ShouldRestart, hfail, isSavepointUpToDate_some, Bool.and_eq_true]
  · intro h
    cases j with
    | none => cases s <;> simp [ShouldRestart] at h
    | some jj =>
      cases s with
      | none => simp [ShouldRestart] at h
      | some ss =>
        unfold ShouldRestart at h
        by_cases hfail : IsFailed (some jj) = true
        · simp only [hfail, Bool.not_true, Bool.false_eq_true, if_false,
            Bool.and_eq_true] at h
          exact h.2
        · simp only [Bool.not_eq_true] at hfail
          simp [hfail] at h

theorem shouldRestart_characterization_witness :
    savepointFreshAtCompletion (some ⟨JobStateFailed, "s3://x", some 100, true, some 200⟩)
      (some ⟨some JobRestartPolicyFromSavepointOnFailure, none, none, none⟩) = true :=
  (shouldRestart_characterization
      (some ⟨JobStateFailed, "s3://x", some 100, true, some 200⟩)
      (some ⟨some JobRestartPolicyFromSavepointOnFailure, none, none, none⟩)).2.2
    (by decide)

/-- C2: with both status and spec nil, ShouldRestart returns false as the
claim says, but UpdateReady dereferences the nil spec before its nil-status
case and panics (modelled as none) instead of returning true. -/
theorem updateReady_nil_nil_panics :
    (∀ t : Int, UpdateReady none none t = none) ∧ ShouldRestart none none = false :=
  ⟨fun _ => rfl, rfl⟩

/-- C5: for every Active status (state Running or Deploying) with a blank
fromSavepoint: with takeSavepointOnUpdate true or absent, UpdateReady is
true iff finalSavepoint is true; with takeSavepointOnUpdate false,
UpdateReady is true iff the savepoint is up to date as of observeTime. -/
theorem updateReady_active_branch (jj : JobStatus) (ss : JobSpec) (observeTime : Int)
    (hact : IsActive (some jj) = true) (hblank : isBlank ss.fromSavepoint = true) :
    (ss.takeSavepointOnUpdate.getD true = true →
      (UpdateReady (some jj) (some ss) observeTime = some true ↔
        jj.finalSavepoint = true)) ∧
    (ss.takeSavepointOnUpdate = some false →
      (UpdateReady (some jj) (some ss) observeTime = some true ↔
        IsSavepointUpToDate jj (some ss) observeTime = some true)) := by
  constructor
  · intro htake
    simp [UpdateReady, hblank, hact, htake]
  · intro htake
    simp [UpdateReady, hblank, hact, htake, isSavepointUpToDate_some]

theorem updateReady_active_branch_witness :
    UpdateReady (some ⟨JobStateRunning, "", none, true, none⟩)
      (some ⟨none, none, none, none⟩) 7 = some true :=
  ((updateReady_active_branch ⟨JobStateRunning, "", none, true, none⟩
      ⟨none, none, none, none⟩ 7 (by decide) (by decide)).1 rfl).mpr rfl

/-- C6: for every status with state exactly Updating and a blank
fromSavepoint: with takeSavepointOnUpdate false, UpdateReady is true
unconditionally; with takeSavepointOnUpdate true or absent, the call falls
to the general default and is true iff the savepoint is up to date as of
the completion time (zero when unset). -/
theorem updateReady_updating_branch (jj : JobStatus) (ss : JobSpec) (t : Int)
    (hstate : jj.state = JobStateUpdating) (hblank : isBlank ss.fromSavepoint = true) :
    (ss.takeSavepointOnUpdate = some false →
      UpdateReady (some jj) (some ss) t = some true) ∧
    (ss.takeSavepointOnUpdate.getD true = true →
      (UpdateReady (some jj) (some ss) t = some true ↔
        IsSavepointUpToDate jj (some ss) (jj.completionTime.getD 0) = some true)) := by
  have hnotact : IsActive (some jj) = false := by
    simp [IsActive, hstate, JobStateUpdating, JobStateRunning, JobStateDeploying]
  constructor
  · intro htake
    simp [UpdateReady, hblank, hnotact, hstate, htake]
  · intro htake
    simp [UpdateReady, hblank, hnotact, hstate, htake, isSavepointUpToDate_some]
    congr 1
    cases jj.completionTime with
    | none => rfl
    | some c => by_cases hc : c = 0 <;> simp [metav1TimeIsZero, hc]

theorem updateReady_updating_branch_witness :
    UpdateReady (some ⟨JobStateUpdating, "", none, false, none⟩)
      (some ⟨none, none, some false, none⟩) 3 = some true :=
  (updateReady_updating_branch ⟨JobStateUpdating, "", none, false, none⟩
      ⟨none, none, some false, none⟩ 3 rfl rfl).1 rfl

/-- The HA-enabledness condition actually implemented: the
high-availability key present with value not lowercasing to none (its
blankness is never tested), and the cluster-id and storageDir keys present
and non-blank after trimming. -/
def haEnabledCondition (fc : FlinkCluster) : Bool :=
  match fc.spec.flinkProperties with
  | none => false
  | some props =>
    (match mapLookup props haConfigType with
     | some v => !(toLowerStr v == "none")
     | none => false) &&
    (match mapLookup props haConfigClusterId with
     | some v => !(trimSpace v == "")
     | none => false) &&
    (match mapLookup props haConfigStorageDir with
     | some v => !(trimSpace v == "")
     | none => false)

lemma append_config_map_suffix_ne_empty (s : String) :
    s ++ "-cluster-config-map" ≠ "" := by
  intro h
  have hlen := congrArg String.length h
  rw [String.length_append] at hlen
  have h1 : "-cluster-config-map".length = 19 := rfl
  have h2 : ("" : String).length = 0 := rfl
  omega

/-- C7 counterexample: a properties map whose high-availability value is
the blank string is reported enabled, refuting the claim that enabledness
requires all three values non-blank. -/
theorem haEnabled_blank_type_counterexample :
    IsHighAvailabilityEnabled
      ⟨⟨some [(haConfigType, ""), (haConfigClusterId, "c1"),
        (haConfigStorageDir, "s3://ha")]⟩⟩ = true ∧
    mapLookup [(haConfigType, ""), (haConfigClusterId, "c1"),
        (haConfigStorageDir, "s3://ha")] haConfigType = some "" ∧
    trimSpace "" = "" := by
  decide

/-- C7 amended: IsHighAvailabilityEnabled is true iff the high-availability
key is present with a value other than none case-insensitively (blankness
of that value is not checked) and the cluster-id and storageDir keys are
present and non-blank after trimming; GetHAConfigMapName returns the
empty string iff IsHighAvailabilityEnabled is false, and otherwise it is
the stored cluster-id value followed by the cluster-config-map suffix. -/
theorem haEnabled_and_configMapName (fc : FlinkCluster) :
    IsHighAvailabilityEnabled fc = haEnabledCondition fc ∧
    (GetHAConfigMapName fc = "" ↔ IsHighAvailabilityEnabled fc = false) ∧
    (IsHighAvailabilityEnabled fc = true →
      ∃ props cid, fc.spec.flinkProperties = some props ∧
        mapLookup props haConfigClusterId = some cid ∧
        GetHAConfigMapName fc = cid ++ "-cluster-config-map") := by
  have hname : IsHighAvailabilityEnabled fc = true →
      ∃ props cid, fc.spec.flinkProperties = some props ∧
        mapLookup props haConfigClusterId = some cid ∧
        GetHAConfigMapName fc = cid ++ "-cluster-config-map" := by
    intro hen
    have hen0 := hen
    cases hfp : fc.spec.flinkProperties with
    | none => simp [IsHighAvailabilityEnabled, hfp] at hen
    | some props =>
      simp only [IsHighAvailabilityEnabled, hfp] at hen
      cases hty : mapLookup props haConfigType with
      | none => simp [hty] at hen
      | some v =>
        simp only [hty] at hen
        by_cases hv : (toLowerStr v == "none") = true
        · simp [hv] at hen
        · simp only [Bool.not_eq_true] at hv
          simp only [hv, Bool.false_eq_true, if_false] at hen
          cases hcid : mapLookup props haConfigClusterId with
          | none => simp [hcid] at hen
          | some cid =>
            refine ⟨props, cid, rfl, hcid, ?_⟩
            unfold GetHAConfigMapName
            rw [hen0]
            simp [hfp, hcid]
  refine ⟨?_, ?_, hname⟩
  · unfold IsHighAvailabilityEnabled haEnabledCondition
    rcases fc with ⟨⟨_ | props⟩⟩
    · rfl
    · simp only
      cases mapLookup props haConfigType with
      | none => rfl
      | some v =>
        by_cases hv : (toLowerStr v == "none") = true
        · simp [hv]
        · simp only [Bool.not_eq_true] at hv
          simp only [hv, Bool.false_eq_true, if_false, Bool.not_false, Bool.true_and]
          cases mapLookup props haConfigClusterId with
          | none => rfl
          | some v2 =>
            by_cases hv2 : (trimSpace v2 == "") = true
            · simp [hv2]
            · simp only [Bool.not_eq_true] at hv2
              simp only [hv2, Bool.false_eq_true, if_false, Bool.not_false, Bool.true_and]
              cases mapLookup props haConfigStorageDir with
              | none => rfl
              | some v3 => rfl
  · by_cases hen : IsHighAvailabilityEnabled fc = true
    · rw [hen]
      unfold GetHAConfigMapName
      rw [hen]
      simp only [Bool.not_true, Bool.false_eq_true, if_false]
      constructor
      · intro h
        exact absurd h (append_config_map_suffix_ne_empty _)
      · intro h
        exact absurd h.symm (by decide)
    · simp only [Bool.not_eq_true] at hen
      rw [hen]
      unfold GetHAConfigMapName
      rw [hen]
      simp

theorem haEnabled_and_configMapName_witness :
    ∃ props cid,
      (⟨⟨some [(haConfigType, "zookeeper"), (haConfigClusterId, "c1"),
        (haConfigStorageDir, "s3://ha")]⟩⟩ : FlinkCluster).spec.flinkProperties =
          some props ∧
      mapLookup props haConfigClusterId = some cid ∧
      GetHAConfigMapName ⟨⟨some [(haConfigType, "zookeeper"), (haConfigClusterId, "c1"),
        (haConfigStorageDir, "s3://ha")]⟩⟩ = cid ++ "-cluster-config-map" :=
  (haEnabled_and_configMapName ⟨⟨some [(haConfigType, "zookeeper"),
    (haConfigClusterId, "c1"), (haConfigStorageDir, "s3://ha")]⟩⟩).2.2 (by decide)

/-- C8 counterexample: a status whose state is outside the ten known
lifecycle values but whose final savepoint is recorded makes UpdateReady
return true via the general default branch, refuting the claim that
UpdateReady is false for every unknown state. -/
theorem unknownState_updateReady_true_counterexample :
    ("SomeFutureState" ∉ knownJobStates) ∧
    UpdateReady (some ⟨"SomeFutureState", "s3://x", some 100, true, none⟩)
      (some ⟨none, none, none, none⟩) 0 = some true := by
  decide

/-- C8 amended: for every JobStatus whose state is outside the ten known
lifecycle values, IsActive, IsPending, IsFailed and IsStopped are false and
ShouldRestart is false; UpdateReady does not halt but follows the general
default branch, returning true iff fromSavepoint is non-blank or the
savepoint is up to date as of the completion time (zero when unset), which
is not always false. -/
theorem unknownState_safe_defaults (jj : JobStatus)
    (h : jj.state ∉ knownJobStates) :
    IsActive (some jj) = false ∧ IsPending (some jj) = false ∧
    IsFailed (some jj) = false ∧ IsStopped (some jj) = false ∧
    (∀ s, ShouldRestart (some jj) s = false) ∧
    (∀ (ss : JobSpec) (t : Int), UpdateReady (some jj) (some ss) t =
      some (!isBlank ss.fromSavepoint ||
        isSavepointUpToDateWithSpec jj ss (jj.completionTime.getD 0))) := by
  simp only [knownJobStates, List.mem_cons, List.not_mem_nil, or_false, not_or] at h
  obtain ⟨hP, hD, hR, hU, hRe, hS, hC, hF, hL, hDF⟩ := h
  have hact : IsActive (some jj) = false := by
    simp only [IsActive, Bool.or_eq_false_iff, beq_eq_false_iff_ne, ne_eq]
    exact ⟨hR, hD⟩
  have hpend : IsPending (some jj) = false := by
    simp only [IsPending, Bool.or_eq_false_iff, beq_eq_false_iff_ne, ne_eq]
    exact ⟨⟨hP, hU⟩, hRe⟩
  have hfail : IsFailed (some jj) = false := by
    simp only [IsFailed, Bool.or_eq_false_iff, beq_eq_false_iff_ne, ne_eq]
    exact ⟨⟨hF, hL⟩, hDF⟩
  have hstop : IsStopped (some jj) = false := by
    simp only [IsStopped, hfail, Bool.or_eq_false_iff, beq_eq_false_iff_ne, ne_eq]
    exact ⟨⟨hS, hC⟩, trivial⟩
  refine ⟨hact, hpend, hfail, hstop, ?_, ?_⟩
  · intro s
    cases s with
    | none => rfl
    | some ss => simp [ShouldRestart, hfail]
  · intro ss t
    by_cases hb : isBlank ss.fromSavepoint = true
    · simp only [UpdateReady, hb, Bool.not_true, Bool.false_eq_true, if_false,
        hact, hU, beq_eq_false_iff_ne.mpr hU, Bool.false_and, Bool.false_or]
      congr 2
      cases jj.completionTime with
      | none => rfl
      | some c => by_cases hc : c = 0 <;> simp [metav1TimeIsZero, hc]
    · simp only [Bool.not_eq_true] at hb
      simp [UpdateReady, hb]

theorem unknownState_safe_defaults_witness :
    ShouldRestart (some ⟨"SomeFutureState", "s3://x", some 100, true, none⟩) none = false :=
  (unknownState_safe_defaults ⟨"SomeFutureState", "s3://x", some 100, true, none⟩
    (by decide)).2.2.2.2.1 none

/-- C9: every status with one of the ten defined states falls in exactly
one of the classes Active, Pending, Failed and Succeeded-or-Cancelled;
IsTerminated implies IsStopped for every status and spec; and an absent
status is neither active, pending, failed nor stopped. -/
theorem classification_partition :
    (∀ jj : JobStatus, jj.state ∈ knownJobStates →
      exactlyOneOfFour (IsActive (some jj)) (IsPending (some jj)) (IsFailed (some jj))
        (jj.state == JobStateSucceeded || jj.state == JobStateCancelled) = true) ∧
    (∀ (j : Option JobStatus) (s : Option JobSpec),
      IsTerminated j s = true → IsStopped j = true) ∧
    (IsActive none = false ∧ IsPending none = false ∧ IsFailed none = false ∧
      IsStopped none = false) := by
  refine ⟨?_, ?_, rfl, rfl, rfl, rfl⟩
  · intro jj h
    obtain ⟨st, loc, sptime, fs, ct⟩ := jj
    dsimp only at h ⊢
    fin_cases h <;> (dsimp only [IsActive, IsPending, IsFailed]; decide)
  · intro j s h
    rw [IsTerminated, Bool.and_eq_true] at h
    exact h.1

theorem classification_partition_witness :
    exactlyOneOfFour (IsActive (some ⟨JobStateRunning, "", none, false, none⟩))
      (IsPending (some ⟨JobStateRunning, "", none, false, none⟩))
      (IsFailed (some ⟨JobStateRunning, "", none, false, none⟩))
      ((JobStateRunning : String) == JobStateSucceeded ||
        (JobStateRunning : String) == JobStateCancelled) = true :=
  classification_partition.1 ⟨JobStateRunning, "", none, false, none⟩ (by decide)

/-- C10: when HA is enabled, GetHAConfigMapName formats the raw stored
cluster-id value without trimming; in particular a cluster-id with
surrounding whitespace is kept verbatim in the name, so the name is not
always the trimmed cluster-id followed by the suffix. -/
theorem getHAConfigMapName_raw_cluster_id :
    (∀ (fc : FlinkCluster) (props : List (String × String)) (cid : String),
      fc.spec.flinkProperties = some props →
      mapLookup props haConfigClusterId = some cid →
      IsHighAvailabilityEnabled fc = true →
      GetHAConfigMapName fc = cid ++ "-cluster-config-map") ∧
    (IsHighAvailabilityEnabled ⟨⟨some [(haConfigType, "zookeeper"),
        (haConfigClusterId, " c1 "), (haConfigStorageDir, "s3://ha")]⟩⟩ = true ∧
      GetHAConfigMapName ⟨⟨some [(haConfigType, "zookeeper"),
        (haConfigClusterId, " c1 "), (haConfigStorageDir, "s3://ha")]⟩⟩ =
        " c1 -cluster-config-map" ∧
      " c1 -cluster-config-map" ≠ trimSpace " c1 " ++ "-cluster-config-map") := by
  constructor
  · intro fc props cid h1 h2 h3
    unfold GetHAConfigMapName
    rw [h3]
    simp [h1, h2]
  · exact ⟨by decide, by decide, by decide⟩

theorem getHAConfigMapName_raw_cluster_id_witness :
    GetHAConfigMapName ⟨⟨some [(haConfigType, "zookeeper"), (haConfigClusterId, " c1 "),
      (haConfigStorageDir, "s3://ha")]⟩⟩ = " c1 " ++ "-cluster-config-map" :=
  getHAConfigMapName_raw_cluster_id.1
    ⟨⟨some [(haConfigType, "zookeeper"), (haConfigClusterId, " c1 "),
      (haConfigStorageDir, "s3://ha")]⟩⟩
    [(haConfigType, "zookeeper"), (haConfigClusterId, " c1 "),
      (haConfigStorageDir, "s3://ha")]
    " c1 " rfl (by decide) (by decide)

end FlinkOperator
